import Mathlib

/-!
Verification of the process-supervisor subsystem of the kivy_app repository:
`check_memory.py` (SystemChecker), `safe_launcher.py` (SafeLauncher) and the
version check of `start_server.py`, shallowly embedded as pure Lean functions.
Host observations (psutil readings, socket probes, child-process behaviour)
are passed in as explicit inputs; every function mirrors the control flow of
the Python source it is named after.
-/

namespace KivyApp

/-- The resource readings `SystemChecker`'s individual checks compare against
their thresholds: available memory and free disk in MB (floats in the source,
rationals here), physical CPU core count, and the Python version's major and
minor components. -/
structure ResourceSnapshot where
  available_mb : ℚ
  free_mb : ℚ
  cores : ℕ
  major : ℕ
  minor : ℕ
deriving DecidableEq, Repr

/-- `SystemChecker.__init__`: `self.min_memory_mb = 512`. -/
def min_memory_mb : ℚ := 512

/-- `SystemChecker.__init__`: `self.min_disk_mb = 100`. -/
def min_disk_mb : ℚ := 100

/-- `SystemChecker.__init__`: `self.min_cpu_cores = 1`. -/
def min_cpu_cores : ℕ := 1

/-- `SystemChecker.check_memory`: `available_mb >= self.min_memory_mb`. -/
def check_memory (s : ResourceSnapshot) : Bool :=
  decide (min_memory_mb ≤ s.available_mb)

/-- `SystemChecker.check_disk_space`: `free_mb >= self.min_disk_mb`. -/
def check_disk_space (s : ResourceSnapshot) : Bool :=
  decide (min_disk_mb ≤ s.free_mb)

/-- `SystemChecker.check_cpu`: `cores >= self.min_cpu_cores`. -/
def check_cpu (s : ResourceSnapshot) : Bool :=
  decide (min_cpu_cores ≤ s.cores)

/-- `SystemChecker.check_python_version` (check_memory.py line 112):
`is_sufficient = (version_info['major'] >= 3 and version_info['minor'] >= 8)`. -/
def check_python_version (major minor : ℕ) : Bool :=
  decide (3 ≤ major) && decide (8 ≤ minor)

/-- The version acceptance the spec mandates (§4.1): `(major > required_major)
OR (major == required_major AND minor >= required_minor)` with required
version 3.8.  Stated from the spec's words, to be compared with the code's
`check_python_version`. -/
def spec_version_ok (major minor : ℕ) : Bool :=
  decide (3 < major) || (decide (major = 3) && decide (8 ≤ minor))

/-- `check_python_version` of start_server.py (line 28): passes unless
`sys.version_info < (3, 8)`, a lexicographic tuple comparison. -/
def start_server_version_ok (major minor : ℕ) : Bool :=
  ! (decide (major < 3) || (decide (major = 3) && decide (minor < 8)))

/-- Claim C1: `SystemChecker.check_python_version` rejects Python 4.0 even
though its own comment requires only "Python 3.8+" and the spec's corrected
comparison (and start_server.py's tuple comparison) accept it; the code and
the claim agree on 3.7, 3.8 and 3.9 but diverge at 4.0. -/
theorem python_version_check_divergence :
    check_python_version 4 0 = false ∧
    spec_version_ok 4 0 = true ∧
    start_server_version_ok 4 0 = true ∧
    check_python_version 3 7 = false ∧
    check_python_version 3 8 = true ∧
    check_python_version 3 9 = true := by
  decide

/-- start_server.py's tuple comparison agrees with the spec's corrected
version check on every input; only check_memory.py's comparison diverges. -/
theorem start_server_matches_spec (major minor : ℕ) :
    start_server_version_ok major minor = spec_version_ok major minor := by
  unfold start_server_version_ok spec_version_ok
  rw [Bool.eq_iff_iff]
  simp only [Bool.not_eq_true', Bool.or_eq_false_iff, Bool.and_eq_false_iff,
    Bool.or_eq_true, Bool.and_eq_true, decide_eq_true_eq, decide_eq_false_iff_not]
  omega

/-- One entry of `psutil.net_connections()` as `check_network_ports` and
`_free_port` read it: the local-address port when `conn.laddr` is set, and the
owning pid when `conn.pid` is set. -/
structure Conn where
  laddrPort : Option ℕ
  pid : Option ℕ
deriving DecidableEq, Repr

/-- The per-port record `check_network_ports` stores: `available` and a status
text (`'Livre'`, `'Em uso'`, or `'Erro: …'`). -/
structure PortStatus where
  available : Bool
  status : String
deriving DecidableEq, Repr

/-- The generator inside `check_network_ports` (line 150):
`any(conn.laddr.port == port for conn in connections if conn.laddr)`. -/
def port_in_use (conns : List Conn) (port : ℕ) : Bool :=
  conns.any fun c => c.laddrPort = some port

/-- One iteration of `SystemChecker.check_network_ports` for one port: the
`try` branch classifies the port from the connection list, the `except`
branch records it as unavailable with an error status. -/
def check_network_port (res : Except String (List Conn)) (port : ℕ) : PortStatus :=
  match res with
  | Except.ok conns =>
    if port_in_use conns port then
      { available := false, status := "Em uso" }
    else
      { available := true, status := "Livre" }
  | Except.error e => { available := false, status := "Erro: " ++ e }

/-- `check_network_ports`'s default port list `[8000, 5000, 3000]`. -/
def default_ports : List ℕ := [8000, 5000, 3000]

/-- `SystemChecker.check_network_ports`: each port is classified from a fresh
`psutil.net_connections()` observation, supplied here per port. -/
def check_network_ports (oracle : ℕ → Except String (List Conn)) (ports : List ℕ) :
    List (ℕ × PortStatus) :=
  ports.map fun p => (p, check_network_port (oracle p) p)

/-- The recommendation `run_full_check` appends when `check_memory` fails. -/
def memory_recommendation (s : ResourceSnapshot) : String :=
  "Memória insuficiente. Disponível: " ++ toString s.available_mb ++
    " MB, Necessário: " ++ toString min_memory_mb ++ " MB"

/-- The recommendation `run_full_check` appends when `check_disk_space` fails. -/
def disk_recommendation (s : ResourceSnapshot) : String :=
  "Espaço em disco insuficiente. Disponível: " ++ toString s.free_mb ++
    " MB, Necessário: " ++ toString min_disk_mb ++ " MB"

/-- The recommendation `run_full_check` appends when `check_cpu` fails. -/
def cpu_recommendation (s : ResourceSnapshot) : String :=
  "CPU insuficiente. Cores: " ++ toString s.cores ++
    ", Necessário: " ++ toString min_cpu_cores

/-- The recommendation `run_full_check` appends when `check_python_version`
fails. -/
def python_recommendation (s : ResourceSnapshot) : String :=
  "Versão do Python inadequada. Atual: " ++ toString s.major ++ "." ++
    toString s.minor ++ ", Necessário: 3.8+"

/-- The fields of the `results` dict `SystemChecker.run_full_check` builds:
per-check statuses, the overall verdict, and the recommendation list. -/
structure CheckResult where
  memory_status : Bool
  disk_status : Bool
  cpu_status : Bool
  python_status : Bool
  platform_status : Bool
  ports_status : Bool
  ports_info : List (ℕ × PortStatus)
  overall_status : Bool
  recommendations : List String
deriving Repr

/-- `SystemChecker.run_full_check`: runs each check in order (memory, disk,
cpu, python, platform, ports); every failing check flips `overall_status` to
false and appends its recommendation; the platform and ports sections are
always recorded with `status: True` and never touch the verdict. -/
def run_full_check (s : ResourceSnapshot) (oracle : ℕ → Except String (List Conn)) :
    CheckResult :=
  let memory_ok := check_memory s
  let disk_ok := check_disk_space s
  let cpu_ok := check_cpu s
  let python_ok := check_python_version s.major s.minor
  { memory_status := memory_ok
    disk_status := disk_ok
    cpu_status := cpu_ok
    python_status := python_ok
    platform_status := true
    ports_status := true
    ports_info := check_network_ports oracle default_ports
    overall_status := memory_ok && disk_ok && cpu_ok && python_ok
    recommendations :=
      (if memory_ok then [] else [memory_recommendation s]) ++
      (if disk_ok then [] else [disk_recommendation s]) ++
      (if cpu_ok then [] else [cpu_recommendation s]) ++
      (if python_ok then [] else [python_recommendation s]) }

/-- Claim C3 as amended: whenever exactly one of the four gating checks —
as the code computes them, the version metric through the buggy
`check_python_version` rather than the spec's 3.8 threshold — fails on a
snapshot, `run_full_check` returns `overall_status = false` and a
recommendation list with exactly one entry, the one naming the failing
metric; the other checks are still evaluated and recorded.  Under the spec's
own threshold semantics the one-metric/one-recommendation promise is false:
see `one_threshold_failure_two_recommendations`. -/
theorem single_failing_metric_single_recommendation (s : ResourceSnapshot)
    (oracle : ℕ → Except String (List Conn)) :
    (check_memory s = false → check_disk_space s = true → check_cpu s = true →
      check_python_version s.major s.minor = true →
      (run_full_check s oracle).overall_status = false ∧
      (run_full_check s oracle).recommendations = [memory_recommendation s]) ∧
    (check_memory s = true → check_disk_space s = false → check_cpu s = true →
      check_python_version s.major s.minor = true →
      (run_full_check s oracle).overall_status = false ∧
      (run_full_check s oracle).recommendations = [disk_recommendation s]) ∧
    (check_memory s = true → check_disk_space s = true → check_cpu s = false →
      check_python_version s.major s.minor = true →
      (run_full_check s oracle).overall_status = false ∧
      (run_full_check s oracle).recommendations = [cpu_recommendation s]) ∧
    (check_memory s = true → check_disk_space s = true → check_cpu s = true →
      check_python_version s.major s.minor = false →
      (run_full_check s oracle).overall_status = false ∧
      (run_full_check s oracle).recommendations = [python_recommendation s]) := by
  refine ⟨?_, ?_, ?_, ?_⟩ <;> intro h1 h2 h3 h4 <;>
    simp [run_full_check, h1, h2, h3, h4]

/-- A connection oracle observing no connection at all: every port free,
no enumeration error. -/
def no_conns_oracle : ℕ → Except String (List Conn) := fun _ => Except.ok []

/-- A snapshot with 200 MB available memory (threshold 512) and every other
metric above threshold: the spec's end-to-end scenario B. -/
def low_memory_snapshot : ResourceSnapshot :=
  { available_mb := 200, free_mb := 1000, cores := 4, major := 3, minor := 11 }

/-- Witness for C3 at scenario B's snapshot: only the memory check fails, so
the verdict fails with exactly the memory recommendation. -/
theorem single_failing_metric_witness :
    (run_full_check low_memory_snapshot no_conns_oracle).overall_status = false ∧
    (run_full_check low_memory_snapshot no_conns_oracle).recommendations =
      [memory_recommendation low_memory_snapshot] :=
  (single_failing_metric_single_recommendation low_memory_snapshot no_conns_oracle).1
    (by decide) (by decide) (by decide) (by decide)

/-- A snapshot with 200 MB available memory on Python 4.0: against the
spec's thresholds (512 MB memory, 3.8 via the corrected comparison under
which 4.0 passes), exactly one metric — memory — is below threshold. -/
def low_memory_python4_snapshot : ResourceSnapshot :=
  { available_mb := 200, free_mb := 1000, cores := 4, major := 4, minor := 0 }

/-- Counterexample to C3 as claimed: at 200 MB of memory on Python 4.0,
exactly one metric is below its threshold (memory; the version 4.0 meets the
spec's 3.8 threshold, `spec_version_ok`), yet `run_full_check` returns two
recommendations, not one — the buggy version check of C1 also fires. -/
theorem one_threshold_failure_two_recommendations :
    check_memory low_memory_python4_snapshot = false ∧
    check_disk_space low_memory_python4_snapshot = true ∧
    check_cpu low_memory_python4_snapshot = true ∧
    spec_version_ok low_memory_python4_snapshot.major low_memory_python4_snapshot.minor = true ∧
    (run_full_check low_memory_python4_snapshot no_conns_oracle).overall_status = false ∧
    (run_full_check low_memory_python4_snapshot no_conns_oracle).recommendations =
      [memory_recommendation low_memory_python4_snapshot,
       python_recommendation low_memory_python4_snapshot] ∧
    (run_full_check low_memory_python4_snapshot no_conns_oracle).recommendations.length ≠ 1 := by
  decide

/-- Claim C10: a failed connection enumeration makes `check_network_ports`
report the port as unavailable, yet `run_full_check` always records the ports
section with status true, and the overall verdict is the same whatever the
port observations are — bound ports and port-check errors are advisory only. -/
theorem ports_advisory_only (e : String) (p : ℕ) (s : ResourceSnapshot)
    (o o' : ℕ → Except String (List Conn)) :
    (check_network_port (Except.error e) p).available = false ∧
    (run_full_check s o).ports_status = true ∧
    (run_full_check s o).overall_status = (run_full_check s o').overall_status := by
  exact ⟨rfl, rfl, rfl⟩

/-- How a process reacts to `_free_port`'s two-step protocol: `dead` means
`psutil.Process(pid)` raises `NoSuchProcess`; `terminatable` means the process
exits within the 5-second `wait`; `stubborn` means it is still alive when the
`wait` times out (`TimeoutExpired`). -/
inductive ProcState where
  | dead
  | terminatable
  | stubborn
deriving DecidableEq, Repr

/-- The process-control calls `SafeLauncher._free_port` can issue.  The
source calls `process.terminate()` and `process.wait(timeout=5)`; it contains
no `process.kill()` call, so a `kill` event can never be emitted. -/
inductive FpEvent where
  | terminate (pid : ℕ)
  | kill (pid : ℕ)
deriving DecidableEq, Repr

/-- State after `_free_port`: the process table, and the control calls made
in order. -/
structure FreeState where
  procs : ℕ → ProcState
  events : List FpEvent

/-- The `for conn in connections` loop of `SafeLauncher._free_port`
(lines 88-97): for each connection whose local port matches, with a pid,
build the `psutil.Process` (a `NoSuchProcess` is swallowed), send
`terminate()`, and `wait(timeout=5)` (a `TimeoutExpired` is swallowed,
leaving the process alive; nothing force-kills it). -/
def free_port_loop (port : ℕ) (conns : List Conn) (procs : ℕ → ProcState) : FreeState :=
  match conns with
  | [] => { procs := procs, events := [] }
  | c :: rest =>
    if c.laddrPort = some port then
      match c.pid with
      | none => free_port_loop port rest procs
      | some p =>
        match procs p with
        | ProcState.dead => free_port_loop port rest procs
        | ProcState.terminatable =>
          let r := free_port_loop port rest (fun q => if q = p then ProcState.dead else procs q)
          { procs := r.procs, events := FpEvent.terminate p :: r.events }
        | ProcState.stubborn =>
          let r := free_port_loop port rest procs
          { procs := r.procs, events := FpEvent.terminate p :: r.events }
    else free_port_loop port rest procs

/-- `SafeLauncher._free_port`: enumerate the current connections and run the
loop; every exception inside is caught, so the call always returns. -/
def free_port (conns : List Conn) (procs : ℕ → ProcState) (port : ℕ) : FreeState :=
  free_port_loop port conns procs

theorem free_port_unused_eq (conns : List Conn) (procs : ℕ → ProcState) (port : ℕ)
    (h : ∀ c ∈ conns, c.laddrPort ≠ some port) :
    free_port conns procs port = { procs := procs, events := [] } := by
  induction conns with
  | nil => rfl
  | cons c rest ih =>
    have hc : c.laddrPort ≠ some port := h c (List.mem_cons_self c rest)
    have hrest : ∀ c' ∈ rest, c'.laddrPort ≠ some port :=
      fun c' hm => h c' (List.mem_cons_of_mem c hm)
    simpa [free_port, free_port_loop, hc] using ih hrest

/-- Claim C6: on a port no current connection holds, `_free_port` is a no-op
that succeeds — it touches no process, issues no control call — and calling
it twice in a row from the same observation is equally a no-op both times. -/
theorem free_port_noop_when_unused (conns : List Conn) (procs : ℕ → ProcState)
    (port : ℕ) (h : ∀ c ∈ conns, c.laddrPort ≠ some port) :
    ((free_port conns procs port).events = [] ∧
      (free_port conns procs port).procs = procs) ∧
    ((free_port conns (free_port conns procs port).procs port).events = [] ∧
      (free_port conns (free_port conns procs port).procs port).procs = procs) := by
  have h1 := free_port_unused_eq conns procs port h
  rw [h1]
  have h2 := free_port_unused_eq conns procs port h
  rw [h2]
  exact ⟨⟨rfl, rfl⟩, ⟨rfl, rfl⟩⟩

/-- Witness for C6: a connection table holding only port 9000, freed port
8000 twice — both calls are no-ops. -/
theorem free_port_noop_witness :
    ((free_port [{ laddrPort := some 9000, pid := some 1 }] (fun _ => ProcState.terminatable) 8000).events = [] ∧
      (free_port [{ laddrPort := some 9000, pid := some 1 }] (fun _ => ProcState.terminatable) 8000).procs = (fun _ => ProcState.terminatable)) ∧
    ((free_port [{ laddrPort := some 9000, pid := some 1 }]
        (free_port [{ laddrPort := some 9000, pid := some 1 }] (fun _ => ProcState.terminatable) 8000).procs 8000).events = [] ∧
      (free_port [{ laddrPort := some 9000, pid := some 1 }]
        (free_port [{ laddrPort := some 9000, pid := some 1 }] (fun _ => ProcState.terminatable) 8000).procs 8000).procs = (fun _ => ProcState.terminatable)) :=
  free_port_noop_when_unused [{ laddrPort := some 9000, pid := some 1 }]
    (fun _ => ProcState.terminatable) 8000 (by decide)

/-- Claim C7 as amended: when a connection on the port names a live owning
process, `_free_port` finds it, sends a graceful terminate and waits up to
5 seconds — but if the process is still alive after the wait, the
`TimeoutExpired` is swallowed and the process is never force-killed: no
`kill` call exists on this path. -/
theorem free_port_terminate_no_force_kill (procs : ℕ → ProcState) (port p : ℕ)
    (halive : procs p ≠ ProcState.dead) :
    (free_port [{ laddrPort := some port, pid := some p }] procs port).events =
      [FpEvent.terminate p] ∧
    (∀ q, FpEvent.kill q ∉
      (free_port [{ laddrPort := some port, pid := some p }] procs port).events) ∧
    (procs p = ProcState.stubborn →
      (free_port [{ laddrPort := some port, pid := some p }] procs port).procs p =
        ProcState.stubborn) ∧
    (procs p = ProcState.terminatable →
      (free_port [{ laddrPort := some port, pid := some p }] procs port).procs p =
        ProcState.dead) := by
  cases hp : procs p with
  | dead => exact absurd hp halive
  | terminatable =>
    refine ⟨?_, ?_, ?_, ?_⟩ <;>
      simp [free_port, free_port_loop, hp]
  | stubborn =>
    refine ⟨?_, ?_, ?_, ?_⟩ <;>
      simp [free_port, free_port_loop, hp]

/-- Witness for C7's amended theorem: pid 42 ignores the graceful terminate;
`_free_port` records the terminate, never a kill, and leaves it alive. -/
theorem free_port_no_kill_witness :
    (free_port [{ laddrPort := some 8000, pid := some 42 }] (fun _ => ProcState.stubborn) 8000).events =
      [FpEvent.terminate 42] ∧
    (∀ q, FpEvent.kill q ∉
      (free_port [{ laddrPort := some 8000, pid := some 42 }] (fun _ => ProcState.stubborn) 8000).events) ∧
    ((fun _ => ProcState.stubborn : ℕ → ProcState) 42 = ProcState.stubborn →
      (free_port [{ laddrPort := some 8000, pid := some 42 }] (fun _ => ProcState.stubborn) 8000).procs 42 =
        ProcState.stubborn) ∧
    ((fun _ => ProcState.stubborn : ℕ → ProcState) 42 = ProcState.terminatable →
      (free_port [{ laddrPort := some 8000, pid := some 42 }] (fun _ => ProcState.stubborn) 8000).procs 42 =
        ProcState.dead) :=
  free_port_terminate_no_force_kill (fun _ => ProcState.stubborn) 8000 42 (by decide)

/-- Counterexample to C7 as claimed: port 8000 is held by live pid 42, which
survives the graceful terminate and the bounded wait, yet `_free_port` does
not force-kill it — the process is still alive afterwards and no kill call
was ever issued. -/
theorem stubborn_process_not_killed :
    (free_port [{ laddrPort := some 8000, pid := some 42 }] (fun _ => ProcState.stubborn) 8000).procs 42 =
      ProcState.stubborn ∧
    FpEvent.kill 42 ∉
      (free_port [{ laddrPort := some 8000, pid := some 42 }] (fun _ => ProcState.stubborn) 8000).events := by
  decide

/-- How `_wait_for_server` (and the 60-second startup window) ends: the probe
connects (`ready`), the window elapses without a connection (`timeout`), or a
termination signal arrives during the wait (`signal`: the handler runs
`_cleanup` and `sys.exit(0)` right there). -/
inductive StartupResult where
  | ready
  | timeout
  | signal
deriving DecidableEq, Repr

/-- How the `_keep_alive` phase ends once the server was ready: the liveness
poll sees the child dead (`childDeath`), the operator hits Ctrl+C
(`keyboardInterrupt`, caught inside `_keep_alive`), a termination signal
(`signal`: handler runs `_cleanup` then `sys.exit(0)`), or an exception
escapes the run loop (`exception`, caught by `launch`'s `except Exception`). -/
inductive RunEnd where
  | childDeath
  | keyboardInterrupt
  | signal
  | exception
deriving DecidableEq, Repr

/-- Everything the host decides during one `SafeLauncher.launch` run: the
resource readings, the connection observations, whether the target port
probe finds it free before and after `_free_port`, whether the required
modules import, whether `subprocess.Popen` succeeds, and how the startup
wait and the running phase end. -/
structure LaunchEnv where
  snapshot : ResourceSnapshot
  portsOracle : ℕ → Except String (List Conn)
  portFreeInitially : Bool
  portFreeAfterReclaim : Bool
  modulesOk : Bool
  spawnOk : Bool
  startup : StartupResult
  runEnd : RunEnd

/-- The observable actions of one run: spawning the child
(`subprocess.Popen` in `_launch_app_process`) and running `_cleanup`. -/
inductive LaunchEvent where
  | spawn
  | cleanup
deriving DecidableEq, Repr

/-- How `SafeLauncher._pre_launch_checks` returns `False`: the resource
verdict failed (carrying the recommendations it logs), the port could not be
reclaimed, or a required module is missing. -/
inductive PreCheckOutcome where
  | resourceFail (recs : List String)
  | portUnreclaimable
  | moduleMissing
  | ok
deriving Repr

/-- `SafeLauncher._pre_launch_checks`: run `SystemChecker.run_full_check`
(returning `False` with its recommendations logged when the verdict fails),
then require the target port free — after one `_free_port` attempt if needed
— then require the modules to import. -/
def pre_launch_checks (env : LaunchEnv) : PreCheckOutcome :=
  let check := run_full_check env.snapshot env.portsOracle
  if !check.overall_status then
    PreCheckOutcome.resourceFail check.recommendations
  else if !env.portFreeInitially && !env.portFreeAfterReclaim then
    PreCheckOutcome.portUnreclaimable
  else if !env.modulesOk then
    PreCheckOutcome.moduleMissing
  else
    PreCheckOutcome.ok

/-- What one whole supervisor run produces: the process exit code (`main`
returns 0 when `launch` returned `True`, 1 otherwise; a signal handler exits
0 directly), the spawn/cleanup actions in order, and the recommendations the
launcher surfaced on a resource failure. -/
structure RunResult where
  exitCode : ℕ
  events : List LaunchEvent
  surfacedRecs : List String
deriving Repr

/-- One run of `SafeLauncher.launch` followed by `main`'s exit-code mapping,
by the source's control flow.  Failed pre-checks and a failed spawn return
`False` with only the `finally` cleanup.  A startup timeout runs the explicit
`_cleanup` at line 290 and then the `finally` one again.  A signal runs
`_cleanup` inside the handler, and `sys.exit(0)`'s `SystemExit` — caught by
neither `except` clause — still runs the `finally` cleanup on the way out.
A child death or a `KeyboardInterrupt` ends `_keep_alive` normally, so
`launch` returns `True`; any other exception is caught and returns `False`. -/
def launch_run (env : LaunchEnv) : RunResult :=
  match pre_launch_checks env with
  | PreCheckOutcome.resourceFail recs =>
    { exitCode := 1, events := [LaunchEvent.cleanup], surfacedRecs := recs }
  | PreCheckOutcome.portUnreclaimable =>
    { exitCode := 1, events := [LaunchEvent.cleanup], surfacedRecs := [] }
  | PreCheckOutcome.moduleMissing =>
    { exitCode := 1, events := [LaunchEvent.cleanup], surfacedRecs := [] }
  | PreCheckOutcome.ok =>
    if !env.spawnOk then
      { exitCode := 1, events := [LaunchEvent.cleanup], surfacedRecs := [] }
    else
      match env.startup with
      | StartupResult.timeout =>
        { exitCode := 1,
          events := [LaunchEvent.spawn, LaunchEvent.cleanup, LaunchEvent.cleanup],
          surfacedRecs := [] }
      | StartupResult.signal =>
        { exitCode := 0,
          events := [LaunchEvent.spawn, LaunchEvent.cleanup, LaunchEvent.cleanup],
          surfacedRecs := [] }
      | StartupResult.ready =>
        match env.runEnd with
        | RunEnd.childDeath =>
          { exitCode := 0, events := [LaunchEvent.spawn, LaunchEvent.cleanup],
            surfacedRecs := [] }
        | RunEnd.keyboardInterrupt =>
          { exitCode := 0, events := [LaunchEvent.spawn, LaunchEvent.cleanup],
            surfacedRecs := [] }
        | RunEnd.signal =>
          { exitCode := 0,
            events := [LaunchEvent.spawn, LaunchEvent.cleanup, LaunchEvent.cleanup],
            surfacedRecs := [] }
        | RunEnd.exception =>
          { exitCode := 1, events := [LaunchEvent.spawn, LaunchEvent.cleanup],
            surfacedRecs := [] }

/-- Claim C4: when the pre-flight resource verdict fails, the run never
spawns a child, surfaces exactly the verdict's recommendation list, and
exits with code 1. -/
theorem resource_fail_no_spawn_exit1 (env : LaunchEnv)
    (hfail : (run_full_check env.snapshot env.portsOracle).overall_status = false) :
    (launch_run env).exitCode = 1 ∧
    LaunchEvent.spawn ∉ (launch_run env).events ∧
    (launch_run env).surfacedRecs =
      (run_full_check env.snapshot env.portsOracle).recommendations := by
  simp [launch_run, pre_launch_checks, hfail]

/-- A launch environment for scenario B: 200 MB available memory, everything
else healthy and the startup and run phases nominally succeeding. -/
def low_memory_env : LaunchEnv :=
  { snapshot := low_memory_snapshot, portsOracle := no_conns_oracle,
    portFreeInitially := true, portFreeAfterReclaim := true,
    modulesOk := true, spawnOk := true,
    startup := StartupResult.ready, runEnd := RunEnd.childDeath }

/-- Witness for C4 at scenario B: 200 MB of memory fails the verdict, no
child is spawned, the memory recommendation (whose text carries the 512 MB
threshold) is surfaced, and the exit code is 1. -/
theorem resource_fail_witness :
    (launch_run low_memory_env).exitCode = 1 ∧
    LaunchEvent.spawn ∉ (launch_run low_memory_env).events ∧
    (launch_run low_memory_env).surfacedRecs =
      (run_full_check low_memory_env.snapshot low_memory_env.portsOracle).recommendations :=
  resource_fail_no_spawn_exit1 low_memory_env (by decide)

/-- Claim C2 as amended: the cleanup routine runs on every exit path of a
run — at least once, whatever the environment does. -/
theorem cleanup_on_every_exit_path (env : LaunchEnv) :
    1 ≤ (launch_run env).events.count LaunchEvent.cleanup := by
  rcases env with ⟨s, o, pf, pr, mo, so, st, re⟩
  cases h : (run_full_check s o).overall_status <;> cases pf <;> cases pr <;>
    cases mo <;> cases so <;> cases st <;> cases re <;>
    simp [launch_run, pre_launch_checks, h, List.count_cons]

/-- A healthy snapshot: every metric above its threshold. -/
def ok_snapshot : ResourceSnapshot :=
  { available_mb := 2048, free_mb := 1000, cores := 4, major := 3, minor := 11 }

/-- A run in which everything passes but the child never opens its port
within the startup window. -/
def timeout_env : LaunchEnv :=
  { snapshot := ok_snapshot, portsOracle := no_conns_oracle,
    portFreeInitially := true, portFreeAfterReclaim := true,
    modulesOk := true, spawnOk := true,
    startup := StartupResult.timeout, runEnd := RunEnd.childDeath }

/-- Counterexample to C2 as claimed: on the startup-timeout exit path the
cleanup routine runs twice — the explicit `_cleanup()` call in `launch`
(line 290) and then the `finally` block again — so it does not run at most
once per run. -/
theorem cleanup_twice_on_timeout_path :
    (launch_run timeout_env).events.count LaunchEvent.cleanup = 2 := by
  decide

/-- The failure conditions the source maps to exit code 1: a failed resource
verdict, an unreclaimable port, a missing module, a failed spawn, a startup
timeout, or an exception escaping the running phase. -/
def failure_path (env : LaunchEnv) : Bool :=
  !(run_full_check env.snapshot env.portsOracle).overall_status ||
  (!env.portFreeInitially && !env.portFreeAfterReclaim) ||
  !env.modulesOk ||
  !env.spawnOk ||
  (match env.startup with | StartupResult.timeout => true | _ => false) ||
  (match env.startup, env.runEnd with
   | StartupResult.ready, RunEnd.exception => true
   | _, _ => false)

/-- Claim C5 as amended: the run exits 1 exactly on the failure paths —
resource-check failure, port unreclaimable, missing module, spawn failure,
startup timeout, or unhandled exception — and exits 0 on a graceful
run-and-stop, a user interrupt, a termination signal, and also on a child
crash detected while Running (`_keep_alive` breaks and `launch` still
returns `True`). -/
theorem exit_code_characterization (env : LaunchEnv) :
    (launch_run env).exitCode = if failure_path env then 1 else 0 := by
  rcases env with ⟨s, o, pf, pr, mo, so, st, re⟩
  cases h : (run_full_check s o).overall_status <;> cases pf <;> cases pr <;>
    cases mo <;> cases so <;> cases st <;> cases re <;>
    simp [launch_run, pre_launch_checks, failure_path, h]

/-- A run in which everything passes, the server becomes ready, and the
child then dies unexpectedly while Running. -/
def child_crash_env : LaunchEnv :=
  { snapshot := ok_snapshot, portsOracle := no_conns_oracle,
    portFreeInitially := true, portFreeAfterReclaim := true,
    modulesOk := true, spawnOk := true,
    startup := StartupResult.ready, runEnd := RunEnd.childDeath }

/-- Counterexample to C5 as claimed: a child crash while Running makes
`_keep_alive` break out of its loop and `launch` return `True`, so the
process exits 0, not the claimed 1. -/
theorem child_crash_exits_zero :
    (launch_run child_crash_env).exitCode = 0 ∧ (launch_run child_crash_env).exitCode ≠ 1 := by
  decide

/-- Claim C9: a run spawns at most one child process: the single
`subprocess.Popen` call in `_launch_app_process` is reached at most once on
every control path of `launch`. -/
theorem at_most_one_spawn_per_run (env : LaunchEnv) :
    (launch_run env).events.count LaunchEvent.spawn ≤ 1 := by
  rcases env with ⟨s, o, pf, pr, mo, so, st, re⟩
  cases h : (run_full_check s o).overall_status <;> cases pf <;> cases pr <;>
    cases mo <;> cases so <;> cases st <;> cases re <;>
    simp [launch_run, pre_launch_checks, h, List.count_cons]

/-- The warning `_health_check` logs when the TCP probe fails. -/
def probe_warning : String := "Servidor não está respondendo"

/-- `SafeLauncher._health_check`: probe the port (probe failure logs a
warning and returns `False`), then sample the child — a vanished process
returns `False`, memory above 2048 MB logs a warning and triggers a
best-effort `gc.collect()` but still returns `True`. -/
def health_check (probeOk procFound : Bool) (memory_mb : ℚ) : Bool × List String :=
  if !probeOk then
    (false, [probe_warning])
  else if !procFound then
    (false, ["Processo do aplicativo não encontrado"])
  else if decide (2048 < memory_mb) then
    (true, ["Alto uso de memória"])
  else
    (true, [])

/-- How one `_keep_alive` loop iteration ends. -/
inductive KAOutcome where
  | continueRunning
  | exitShutdownRequested
  | exitChildDeath
deriving DecidableEq, Repr

/-- One iteration of the `_keep_alive` loop: leave the loop when shutdown was
requested or the liveness poll (`self.app_process.poll()`) sees the child
dead; otherwise, when the 30-second mark has passed, call `_health_check` —
whose boolean result the loop discards, keeping only its warnings — and
continue. -/
def keep_alive_step (shutdownRequested childAlive healthDue probeOk procFound : Bool)
    (memory_mb : ℚ) : KAOutcome × List String :=
  if shutdownRequested then
    (KAOutcome.exitShutdownRequested, [])
  else if !childAlive then
    (KAOutcome.exitChildDeath, [])
  else if healthDue then
    (KAOutcome.continueRunning, (health_check probeOk procFound memory_mb).2)
  else
    (KAOutcome.continueRunning, [])

/-- Claim C8: while Running, an iteration of the supervision loop keeps
running exactly when no shutdown was requested and the child is alive —
independent of the TCP probe's outcome, whose failure at a due health check
produces only the warning; only child death or an operator signal ends the
loop. -/
theorem probe_failure_never_shuts_down (sr ca hd p pf : Bool) (m : ℚ) :
    ((keep_alive_step sr ca hd p pf m).1 = KAOutcome.continueRunning ↔
      (sr = false ∧ ca = true)) ∧
    keep_alive_step false true true false pf m =
      (KAOutcome.continueRunning, [probe_warning]) := by
  cases sr <;> cases ca <;> cases hd <;> cases p <;>
    simp [keep_alive_step, health_check]

end KivyApp
